import Mathlib

/-!
Shallow embedding of the CHIP-8 virtual machine from `internal/vm`
(files `vm.go` and `opcode.go`).  Machine words are modelled as `Nat`
with explicit `% 2^8` / `% 2^16` where Go's fixed-width arithmetic can
overflow.  Go slice indexing that would panic at runtime (index out of
range) is modelled by the instruction returning `none`; a returned
`some (s, e)` carries the post state and the Go error value (`nil`
modelled as `none`).
-/

namespace Chip8

/-- Constants from `vm.go`. -/
def MemorySize : Nat := 4096

def StackSize : Nat := 16

def RegisterCount : Nat := 16

def ScreenWidth : Nat := 64

def ScreenHeight : Nat := 32

def KeyCount : Nat := 16

def ProgramStart : Nat := 0x200

def InstructionSize : Nat := 2

/-- Pointwise update of a `Nat`-indexed store (models a Go slice write). -/
def upd (f : Nat → Nat) (i v : Nat) : Nat → Nat :=
  fun j => if j = i then v else f j

/-- 16-bit addition, as Go computes it on `uint16` values. -/
def inc16 (a b : Nat) : Nat := (a + b) % 65536

/-- The X nibble of an opcode: `(opcode & 0x0F00) >> 8`. -/
def nibX (op : Nat) : Nat := (op &&& 0x0F00) >>> 8

/-- The Y nibble of an opcode: `(opcode & 0x00F0) >> 4`. -/
def nibY (op : Nat) : Nat := (op &&& 0x00F0) >>> 4

/-- The low nibble of an opcode: `opcode & 0x000F` (sprite height). -/
def nibN (op : Nat) : Nat := op &&& 0x000F

/-- 8-bit subtraction `a - b` as Go computes it on `uint8` values below 256. -/
def sub8 (a b : Nat) : Nat := (a + 256 - b) % 256

/-- Go error values produced by the VM core: `errInfiniteLoop` and the
`unknown op code` error carrying the raw opcode. -/
inductive VMErr where
  | infiniteLoop : VMErr
  | unknownOpcode : Nat → VMErr
deriving DecidableEq, Repr

/-- The `VM` struct from `vm.go`.  Slices are modelled as functions;
only indices below the corresponding length constants are meaningful. -/
structure VMState where
  memory : Nat → Nat
  registers : Nat → Nat
  stack : Nat → Nat
  sp : Nat
  pc : Nat
  index : Nat
  delayTimer : Nat
  soundTimer : Nat
  gfx : Nat → Nat
  keypad : Nat → Nat
  drawFlag : Bool

/-- A freshly zeroed machine, program counter at `ProgramStart`. -/
def zeroState : VMState where
  memory := fun _ => 0
  registers := fun _ => 0
  stack := fun _ => 0
  sp := 0
  pc := ProgramStart
  index := 0
  delayTimer := 0
  soundTimer := 0
  gfx := fun _ => 0
  keypad := fun _ => 0
  drawFlag := false

/-- Result of executing one instruction: post state plus the Go error
value returned by the handler (`none` = `nil`). -/
abbrev ExecResult := VMState × Option VMErr

/-- 00E0: zero the framebuffer, raise the dirty flag, advance PC. -/
def clsInstruction (s : VMState) (_op : Nat) : Option ExecResult :=
  some ({ s with gfx := fun _ => 0, drawFlag := true,
                 pc := inc16 s.pc InstructionSize }, none)

/-- 00EE: decrement the stack pointer, pop PC, advance PC.
`sp = 0` underflows to 65535 in Go and the stack access panics;
`sp > 16` would also index out of range. -/
def rtsInstruction (s : VMState) (_op : Nat) : Option ExecResult :=
  if 1 ≤ s.sp ∧ s.sp ≤ StackSize then
    some ({ s with sp := s.sp - 1,
                   pc := inc16 (s.stack (s.sp - 1)) InstructionSize }, none)
  else
    none

/-- 1NNN: jump.  A jump to the current PC returns `errInfiniteLoop`
without mutating any state; otherwise PC is set to NNN. -/
def jmpInstruction (s : VMState) (op : Nat) : Option ExecResult :=
  let pc := op &&& 0x0FFF
  if pc = s.pc then
    some (s, some .infiniteLoop)
  else
    some ({ s with pc := pc }, none)

/-- 2NNN: push the current PC, increment the stack pointer, jump.
`sp ≥ 16` makes the stack write panic. -/
def jsrInstruction (s : VMState) (op : Nat) : Option ExecResult :=
  if s.sp < StackSize then
    some ({ s with stack := upd s.stack s.sp s.pc,
                   sp := s.sp + 1,
                   pc := op &&& 0x0FFF }, none)
  else
    none

/-- 3XNN: skip the next instruction if VX = NN. -/
def skeq1Instruction (s : VMState) (op : Nat) : Option ExecResult :=
  let x := s.registers (nibX op)
  let y := op &&& 0x00FF
  if x = y then
    some ({ s with pc := inc16 s.pc (2 * InstructionSize) }, none)
  else
    some ({ s with pc := inc16 s.pc InstructionSize }, none)

/-- 4XNN: skip the next instruction if VX ≠ NN. -/
def skne1Instruction (s : VMState) (op : Nat) : Option ExecResult :=
  let x := s.registers (nibX op)
  let y := op &&& 0x00FF
  if x ≠ y then
    some ({ s with pc := inc16 s.pc (2 * InstructionSize) }, none)
  else
    some ({ s with pc := inc16 s.pc InstructionSize }, none)

/-- 5XY0: skip the next instruction if VX = VY. -/
def skeq2Instruction (s : VMState) (op : Nat) : Option ExecResult :=
  let x := s.registers (nibX op)
  let y := s.registers (nibY op)
  if x = y then
    some ({ s with pc := inc16 s.pc (2 * InstructionSize) }, none)
  else
    some ({ s with pc := inc16 s.pc InstructionSize }, none)

/-- 6XNN: VX = NN. -/
def mov1Instruction (s : VMState) (op : Nat) : Option ExecResult :=
  some ({ s with registers := upd s.registers (nibX op) (op &&& 0x00FF),
                 pc := inc16 s.pc InstructionSize }, none)

/-- 7XNN: VX += NN with 8-bit wraparound, no flag. -/
def add1Instruction (s : VMState) (op : Nat) : Option ExecResult :=
  some ({ s with registers := upd s.registers (nibX op)
                   ((s.registers (nibX op) + (op &&& 0x00FF)) % 256),
                 pc := inc16 s.pc InstructionSize }, none)

/-- 8XY0: VX = VY. -/
def mov2Instruction (s : VMState) (op : Nat) : Option ExecResult :=
  some ({ s with registers := upd s.registers (nibX op) (s.registers (nibY op)),
                 pc := inc16 s.pc InstructionSize }, none)

/-- 8XY1: VX = VX | VY. -/
def orInstruction (s : VMState) (op : Nat) : Option ExecResult :=
  some ({ s with registers := upd s.registers (nibX op)
                   (s.registers (nibX op) ||| s.registers (nibY op)),
                 pc := inc16 s.pc InstructionSize }, none)

/-- 8XY2: VX = VX & VY. -/
def andInstruction (s : VMState) (op : Nat) : Option ExecResult :=
  some ({ s with registers := upd s.registers (nibX op)
                   (s.registers (nibX op) &&& s.registers (nibY op)),
                 pc := inc16 s.pc InstructionSize }, none)

/-- 8XY3: VX = VX ^ VY. -/
def xorInstruction (s : VMState) (op : Nat) : Option ExecResult :=
  some ({ s with registers := upd s.registers (nibX op)
                   (s.registers (nibX op) ^^^ s.registers (nibY op)),
                 pc := inc16 s.pc InstructionSize }, none)

/-- 8XY4: VX = VX + VY (8-bit wrap) first; then VF = 1 if the value now
stored in VX exceeds `0xFF -` that value, else 0.  The comparison reads
the register after the assignment, exactly as the source does. -/
def add2Instruction (s : VMState) (op : Nat) : Option ExecResult :=
  let x := s.registers (nibX op)
  let y := s.registers (nibY op)
  let r1 := upd s.registers (nibX op) ((x + y) % 256)
  let w := r1 (nibX op)
  let r2 := upd r1 15 (if w > 255 - w then 1 else 0)
  some ({ s with registers := r2, pc := inc16 s.pc InstructionSize }, none)

/-- 8XY5: VF = 0 if VY > VX else 1 (written first); then VX = VX - VY. -/
def subInstruction (s : VMState) (op : Nat) : Option ExecResult :=
  let x := s.registers (nibX op)
  let y := s.registers (nibY op)
  let r1 := upd s.registers 15 (if y > x then 0 else 1)
  let r2 := upd r1 (nibX op) (sub8 x y)
  some ({ s with registers := r2, pc := inc16 s.pc InstructionSize }, none)

/-- 8XY6: VF = VX & 1 (written first); then VX = VX >> 1. -/
def shrInstruction (s : VMState) (op : Nat) : Option ExecResult :=
  let x := s.registers (nibX op)
  let r1 := upd s.registers 15 (x &&& 1)
  let r2 := upd r1 (nibX op) (x >>> 1)
  some ({ s with registers := r2, pc := inc16 s.pc InstructionSize }, none)

/-- 8XY7: VF = 0 if VX > VY else 1 (written first); then VX = VY - VX. -/
def rsbInstruction (s : VMState) (op : Nat) : Option ExecResult :=
  let x := s.registers (nibX op)
  let y := s.registers (nibY op)
  let r1 := upd s.registers 15 (if x > y then 0 else 1)
  let r2 := upd r1 (nibX op) (sub8 y x)
  some ({ s with registers := r2, pc := inc16 s.pc InstructionSize }, none)

/-- 8XYE: VF = VX >> 7 (written first); then VX = VX << 1 (8-bit wrap). -/
def shlInstruction (s : VMState) (op : Nat) : Option ExecResult :=
  let x := s.registers (nibX op)
  let r1 := upd s.registers 15 (x >>> 7)
  let r2 := upd r1 (nibX op) ((x <<< 1) % 256)
  some ({ s with registers := r2, pc := inc16 s.pc InstructionSize }, none)

/-- 9XY0: skip the next instruction if VX ≠ VY. -/
def skne2Instruction (s : VMState) (op : Nat) : Option ExecResult :=
  let x := s.registers (nibX op)
  let y := s.registers (nibY op)
  if x ≠ y then
    some ({ s with pc := inc16 s.pc (2 * InstructionSize) }, none)
  else
    some ({ s with pc := inc16 s.pc InstructionSize }, none)

/-- ANNN: I = NNN. -/
def mviInstruction (s : VMState) (op : Nat) : Option ExecResult :=
  some ({ s with index := op &&& 0x0FFF,
                 pc := inc16 s.pc InstructionSize }, none)

/-- BNNN: PC = NNN + V0 (16-bit addition, no 12-bit mask). -/
def jmiInstruction (s : VMState) (op : Nat) : Option ExecResult :=
  some ({ s with pc := ((op &&& 0x0FFF) + s.registers 0) % 65536 }, none)

/-- CXNN: VX = random byte & NN.  The random draw from `rand.IntN(256)`
is passed in as the parameter `rb`; the source then reduces it mod 256
and masks it with NN. -/
def randInstruction (rb : Nat) (s : VMState) (op : Nat) : Option ExecResult :=
  some ({ s with registers := upd s.registers (nibX op)
                   ((rb % 256) &&& (op &&& 0x00FF)),
                 pc := inc16 s.pc InstructionSize }, none)

/-- Screen address computation from `opcode.go`: wrap both coordinates
then index row-major. -/
def getScreenAddr (x y : Nat) : Nat :=
  ScreenWidth * (y % ScreenHeight) + (x % ScreenWidth)

/-- One pixel of the sprite blit: record a collision if the target cell
is nonzero, then XOR-toggle it.  The pair is (framebuffer, collision). -/
def touchPixel (st : (Nat → Nat) × Nat) (a : Nat) : (Nat → Nat) × Nat :=
  (upd st.1 a ((st.1 a) ^^^ 1), if st.1 a ≠ 0 then 1 else st.2)

/-- Screen addresses of the set bits of one sprite row, in the order
the source's inner loop visits them: the loop skips bits whose mask
`0x80 >> x` does not intersect the row byte and toggles the rest. -/
def rowTargets (pixel xLoc yLoc y : Nat) : List Nat :=
  ((List.range 8).filter fun x => pixel &&& (0x80 >>> x) != 0).map fun x =>
    getScreenAddr (x + xLoc) (y + yLoc)

/-- Screen addresses of all set sprite bits, row-major, in execution
order. -/
def spriteTargets (mem : Nat → Nat) (index h xLoc yLoc : Nat) : List Nat :=
  ((List.range h).map fun y =>
    rowTargets (mem (index + y)) xLoc yLoc y).flatten

/-- DXYN: XOR-blit an N-row sprite from memory[I..I+N) at (VX, VY),
collision into VF, dirty flag raised, PC advanced.  A sprite row
outside memory makes the Go slice access panic (the preceding log line
does not stop execution), modelled as `none`. -/
def spriteInstruction (s : VMState) (op : Nat) : Option ExecResult :=
  let h := nibN op
  let xLoc := s.registers (nibX op)
  let yLoc := s.registers (nibY op)
  if ∀ y, y < h → s.index + y < MemorySize then
    let res := (spriteTargets s.memory s.index h xLoc yLoc).foldl touchPixel (s.gfx, 0)
    some ({ s with gfx := res.1,
                   registers := upd s.registers 15 res.2,
                   drawFlag := true,
                   pc := inc16 s.pc InstructionSize }, none)
  else
    none

/-- EX9E: skip if key VX pressed.  A register value ≥ 16 makes the
keypad access panic. -/
def skprInstruction (s : VMState) (op : Nat) : Option ExecResult :=
  let x := s.registers (nibX op)
  if x < KeyCount then
    if s.keypad x ≠ 0 then
      some ({ s with pc := inc16 s.pc (2 * InstructionSize) }, none)
    else
      some ({ s with pc := inc16 s.pc InstructionSize }, none)
  else
    none

/-- EXA1: skip if key VX not pressed. -/
def skupInstruction (s : VMState) (op : Nat) : Option ExecResult :=
  let x := s.registers (nibX op)
  if x < KeyCount then
    if s.keypad x = 0 then
      some ({ s with pc := inc16 s.pc (2 * InstructionSize) }, none)
    else
      some ({ s with pc := inc16 s.pc InstructionSize }, none)
  else
    none

/-- FX07: VX = delay timer. -/
def gdelayInstruction (s : VMState) (op : Nat) : Option ExecResult :=
  some ({ s with registers := upd s.registers (nibX op) s.delayTimer,
                 pc := inc16 s.pc InstructionSize }, none)

/-- FX0A: scan the keypad; each pressed key index is stored into VX in
turn (the last pressed index wins), and PC only advances when some key
was pressed. -/
def keyInstruction (s : VMState) (op : Nat) : Option ExecResult :=
  let scan := (List.range KeyCount).foldl
    (fun (acc : (Nat → Nat) × Bool) i =>
      if s.keypad i ≠ 0 then (upd acc.1 (nibX op) i, true) else acc)
    (s.registers, false)
  if scan.2 then
    some ({ s with registers := scan.1, pc := inc16 s.pc InstructionSize }, none)
  else
    some (s, none)

/-- FX15: delay timer = VX. -/
def sdelayInstruction (s : VMState) (op : Nat) : Option ExecResult :=
  some ({ s with delayTimer := s.registers (nibX op),
                 pc := inc16 s.pc InstructionSize }, none)

/-- FX18: sound timer = VX. -/
def ssoundInstruction (s : VMState) (op : Nat) : Option ExecResult :=
  some ({ s with soundTimer := s.registers (nibX op),
                 pc := inc16 s.pc InstructionSize }, none)

/-- FX1E: VF = 1 if I + VX (16-bit) exceeds 0x0FFF else 0, then
I += VX with 16-bit wraparound and no 12-bit mask. -/
def adiInstruction (s : VMState) (op : Nat) : Option ExecResult :=
  let x := s.registers (nibX op)
  let flag := if (s.index + x) % 65536 > 0x0FFF then 1 else 0
  some ({ s with registers := upd s.registers 15 flag,
                 index := (s.index + x) % 65536,
                 pc := inc16 s.pc InstructionSize }, none)

/-- FX29: I = VX * 5 (font glyphs are 5 bytes each, stored at 0). -/
def fontInstruction (s : VMState) (op : Nat) : Option ExecResult :=
  some ({ s with index := s.registers (nibX op) * 5,
                 pc := inc16 s.pc InstructionSize }, none)

/-- FX33: write the decimal digits of VX at I, I+1, I+2.  No bounds
check in the source: an access at or past 4096 panics. -/
def bcdInstruction (s : VMState) (op : Nat) : Option ExecResult :=
  let x := s.registers (nibX op)
  let m1 := upd s.memory s.index (x / 100)
  let m2 := upd m1 (s.index + 1) ((x / 10) % 10)
  let m3 := upd m2 (s.index + 2) (x % 10)
  if s.index + 2 < MemorySize then
    some ({ s with memory := m3, pc := inc16 s.pc InstructionSize }, none)
  else
    none

/-- FX55: memory[I+i] = Vi for i = 0..X, then I += X + 1 (16-bit).
No bounds check in the source. -/
def strInstruction (s : VMState) (op : Nat) : Option ExecResult :=
  let n := nibX op
  if s.index + n < MemorySize then
    some ({ s with memory := (List.range (n + 1)).foldl
                     (fun m i => upd m (s.index + i) (s.registers i)) s.memory,
                   index := inc16 s.index (n + 1),
                   pc := inc16 s.pc InstructionSize }, none)
  else
    none

/-- FX65: Vi = memory[I+i] for i = 0..X, then I += X + 1 (16-bit).
No bounds check in the source. -/
def ldrInstruction (s : VMState) (op : Nat) : Option ExecResult :=
  let n := nibX op
  if s.index + n < MemorySize then
    some ({ s with registers := (List.range (n + 1)).foldl
                     (fun r i => upd r i (s.memory (s.index + i))) s.registers,
                   index := inc16 s.index (n + 1),
                   pc := inc16 s.pc InstructionSize }, none)
  else
    none

/-- Fallback handler: fail with the `unknown op code` error, carrying
the raw opcode, without touching the state. -/
def unknownInstruction (s : VMState) (op : Nat) : Option ExecResult :=
  some (s, some (.unknownOpcode op))

/-- Instruction descriptors, one per handler in `opcode.go`. -/
inductive Instr where
  | cls | rts | jmp | jsr | skeq1 | skne1 | skeq2 | mov1 | add1
  | mov2 | orr | andr | xorr | add2 | sub | shr | rsb | shl
  | skne2 | mvi | jmi | rnd | sprite | skpr | skup
  | gdelay | key | sdelay | ssound | adi | font | bcd | str | ldr
  | unknown
deriving DecidableEq, Repr

/-- The dispatch switch from `opcode.go`: top nibble selects the
category; categories 0x0, 0x8, 0xE, 0xF select within by the bottom
byte or nibble; anything else resolves to the unknown handler. -/
def decode (op : Nat) : Instr :=
  if op &&& 0xF000 = 0x0000 then
    if op &&& 0x00FF = 0x00E0 then .cls
    else if op &&& 0x00FF = 0x00EE then .rts
    else .unknown
  else if op &&& 0xF000 = 0x1000 then .jmp
  else if op &&& 0xF000 = 0x2000 then .jsr
  else if op &&& 0xF000 = 0x3000 then .skeq1
  else if op &&& 0xF000 = 0x4000 then .skne1
  else if op &&& 0xF000 = 0x5000 then .skeq2
  else if op &&& 0xF000 = 0x6000 then .mov1
  else if op &&& 0xF000 = 0x7000 then .add1
  else if op &&& 0xF000 = 0x8000 then
    if op &&& 0x000F = 0x0000 then .mov2
    else if op &&& 0x000F = 0x0001 then .orr
    else if op &&& 0x000F = 0x0002 then .andr
    else if op &&& 0x000F = 0x0003 then .xorr
    else if op &&& 0x000F = 0x0004 then .add2
    else if op &&& 0x000F = 0x0005 then .sub
    else if op &&& 0x000F = 0x0006 then .shr
    else if op &&& 0x000F = 0x0007 then .rsb
    else if op &&& 0x000F = 0x000E then .shl
    else .unknown
  else if op &&& 0xF000 = 0x9000 then .skne2
  else if op &&& 0xF000 = 0xA000 then .mvi
  else if op &&& 0xF000 = 0xB000 then .jmi
  else if op &&& 0xF000 = 0xC000 then .rnd
  else if op &&& 0xF000 = 0xD000 then .sprite
  else if op &&& 0xF000 = 0xE000 then
    if op &&& 0x00FF = 0x009E then .skpr
    else if op &&& 0x00FF = 0x00A1 then .skup
    else .unknown
  else if op &&& 0xF000 = 0xF000 then
    if op &&& 0x00FF = 0x0007 then .gdelay
    else if op &&& 0x00FF = 0x000A then .key
    else if op &&& 0x00FF = 0x0015 then .sdelay
    else if op &&& 0x00FF = 0x0018 then .ssound
    else if op &&& 0x00FF = 0x001E then .adi
    else if op &&& 0x00FF = 0x0029 then .font
    else if op &&& 0x00FF = 0x0033 then .bcd
    else if op &&& 0x00FF = 0x0055 then .str
    else if op &&& 0x00FF = 0x0065 then .ldr
    else .unknown
  else .unknown

/-- Run the handler selected by a descriptor.  `rb` is the random byte
consumed by CXNN. -/
def execInstr (rb : Nat) (i : Instr) (s : VMState) (op : Nat) : Option ExecResult :=
  match i with
  | .cls => clsInstruction s op
  | .rts => rtsInstruction s op
  | .jmp => jmpInstruction s op
  | .jsr => jsrInstruction s op
  | .skeq1 => skeq1Instruction s op
  | .skne1 => skne1Instruction s op
  | .skeq2 => skeq2Instruction s op
  | .mov1 => mov1Instruction s op
  | .add1 => add1Instruction s op
  | .mov2 => mov2Instruction s op
  | .orr => orInstruction s op
  | .andr => andInstruction s op
  | .xorr => xorInstruction s op
  | .add2 => add2Instruction s op
  | .sub => subInstruction s op
  | .shr => shrInstruction s op
  | .rsb => rsbInstruction s op
  | .shl => shlInstruction s op
  | .skne2 => skne2Instruction s op
  | .mvi => mviInstruction s op
  | .jmi => jmiInstruction s op
  | .rnd => randInstruction rb s op
  | .sprite => spriteInstruction s op
  | .skpr => skprInstruction s op
  | .skup => skupInstruction s op
  | .gdelay => gdelayInstruction s op
  | .key => keyInstruction s op
  | .sdelay => sdelayInstruction s op
  | .ssound => ssoundInstruction s op
  | .adi => adiInstruction s op
  | .font => fontInstruction s op
  | .bcd => bcdInstruction s op
  | .str => strInstruction s op
  | .ldr => ldrInstruction s op
  | .unknown => unknownInstruction s op

/-- `executeOpcode` from `opcode.go`: decode then execute. -/
def executeOpcode (rb : Nat) (s : VMState) (op : Nat) : Option ExecResult :=
  execInstr rb (decode op) s op

/-- `fetchOpcode` from `vm.go`: big-endian 16-bit word at PC.  A PC at
or past 4095 makes one of the two byte reads panic. -/
def fetchOpcode (s : VMState) : Option Nat :=
  if s.pc + 1 < MemorySize then
    some ((s.memory s.pc <<< 8) ||| s.memory (s.pc + 1))
  else
    none

/-- Result of one `step`: post state, whether `Beep` was requested, and
the Go error value. -/
abbrev StepResult := VMState × Bool × Option VMErr

/-- `VM.step` from `vm.go`: fetch and execute one opcode; on success
decrement the delay timer if nonzero, request a beep when the sound
timer is exactly 1, and decrement the sound timer if nonzero.  On an
instruction error the timers are not updated and no beep is requested. -/
def step (rb : Nat) (s : VMState) : Option StepResult :=
  match fetchOpcode s with
  | none => none
  | some op =>
    match executeOpcode rb s op with
    | none => none
    | some (s', some e) => some (s', false, some e)
    | some (s', none) =>
      let s1 := if s'.delayTimer > 0 then { s' with delayTimer := s'.delayTimer - 1 } else s'
      let beep := s1.soundTimer = 1
      let s2 := if s1.soundTimer > 0 then { s1 with soundTimer := s1.soundTimer - 1 } else s1
      some (s2, beep, none)

/-- The opcode patterns for which the dispatch switch in `opcode.go`
selects a defined handler.  Everything else falls through to the
unknown-instruction handler. -/
def KnownOpcode (op : Nat) : Prop :=
  (op &&& 0xF000 = 0x0000 ∧ (op &&& 0x00FF = 0x00E0 ∨ op &&& 0x00FF = 0x00EE)) ∨
  op &&& 0xF000 = 0x1000 ∨ op &&& 0xF000 = 0x2000 ∨ op &&& 0xF000 = 0x3000 ∨
  op &&& 0xF000 = 0x4000 ∨ op &&& 0xF000 = 0x5000 ∨ op &&& 0xF000 = 0x6000 ∨
  op &&& 0xF000 = 0x7000 ∨
  (op &&& 0xF000 = 0x8000 ∧
    (op &&& 0x000F = 0x0000 ∨ op &&& 0x000F = 0x0001 ∨ op &&& 0x000F = 0x0002 ∨
     op &&& 0x000F = 0x0003 ∨ op &&& 0x000F = 0x0004 ∨ op &&& 0x000F = 0x0005 ∨
     op &&& 0x000F = 0x0006 ∨ op &&& 0x000F = 0x0007 ∨ op &&& 0x000F = 0x000E)) ∨
  op &&& 0xF000 = 0x9000 ∨ op &&& 0xF000 = 0xA000 ∨ op &&& 0xF000 = 0xB000 ∨
  op &&& 0xF000 = 0xC000 ∨ op &&& 0xF000 = 0xD000 ∨
  (op &&& 0xF000 = 0xE000 ∧ (op &&& 0x00FF = 0x009E ∨ op &&& 0x00FF = 0x00A1)) ∨
  (op &&& 0xF000 = 0xF000 ∧
    (op &&& 0x00FF = 0x0007 ∨ op &&& 0x00FF = 0x000A ∨ op &&& 0x00FF = 0x0015 ∨
     op &&& 0x00FF = 0x0018 ∨ op &&& 0x00FF = 0x001E ∨ op &&& 0x00FF = 0x0029 ∨
     op &&& 0x00FF = 0x0033 ∨ op &&& 0x00FF = 0x0055 ∨ op &&& 0x00FF = 0x0065))

/-- The framebuffer effect of blitting one sprite pixel: XOR-toggle one
cell.  This is the first component of `touchPixel`. -/
def togPix (g : Nat → Nat) (a : Nat) : Nat → Nat :=
  upd g a ((g a) ^^^ 1)

/-- Machine with V0 = 0xFF and V1 = 0x01 (the add-reg carry example). -/
def c1State : VMState :=
  { zeroState with registers := upd (upd zeroState.registers 0 0xFF) 1 0x01 }

/-- Machine with a `mov v0, 0` opcode (0x6000) at PC = 0x200, delay
timer 2 and sound timer 1. -/
def c2State : VMState :=
  { zeroState with memory := upd zeroState.memory 0x200 0x60,
                   delayTimer := 2, soundTimer := 1 }

/-- The state `c2State` reaches after executing the fetched opcode
0x6000, before the timer update. -/
def c2After : VMState :=
  { c2State with registers := upd c2State.registers 0 0,
                 pc := inc16 c2State.pc InstructionSize }

/-- Machine whose index register points 2 bytes before the end of
memory, so a BCD store runs past address 4095. -/
def c3State : VMState := { zeroState with index := 4094 }

/-- Machine with V0 = 0xFF, used to push `jmi` past 12 bits. -/
def c4State : VMState := { zeroState with registers := upd zeroState.registers 0 0xFF }

/-- Machine with V2 = 0x20 and V3 = 0x30 for the add-reg witness. -/
def c5State : VMState :=
  { zeroState with registers := upd (upd zeroState.registers 2 0x20) 3 0x30 }

/-- Machine parked at PC = 0x200, the jump-to-self example address. -/
def c6State : VMState := { zeroState with pc := 0x200 }

/-- Machine with one framebuffer pixel set at cell 0 and the one-row
sprite byte 0x80 at memory address 0. -/
def c8State : VMState :=
  { zeroState with gfx := upd zeroState.gfx 0 1,
                   memory := upd zeroState.memory 0 0x80 }

/-- Machine with V0..V3 = 1,2,3,4 and I = 0x300 (the round-trip
example from the spec). -/
def c9State : VMState :=
  { zeroState with
      registers := upd (upd (upd (upd zeroState.registers 0 1) 1 2) 2 3) 3 4,
      index := 0x300 }

/-- Machine with VF = 7 and V1 = 3, used to exercise instructions whose
destination register is VF. -/
def c10State : VMState :=
  { zeroState with registers := upd (upd zeroState.registers 15 7) 1 3 }

/-- The state produced by an in-range DXYN draw: the same record the
then-branch of `spriteInstruction` builds, named so that both draws of
a double-draw can be written down. -/
def spriteOut (s : VMState) (op : Nat) : VMState :=
  { s with gfx := ((spriteTargets s.memory s.index (nibN op)
                     (s.registers (nibX op)) (s.registers (nibY op))).foldl
                     touchPixel (s.gfx, 0)).1,
           registers := upd s.registers 15
             ((spriteTargets s.memory s.index (nibN op)
                (s.registers (nibX op)) (s.registers (nibY op))).foldl
                touchPixel (s.gfx, 0)).2,
           drawFlag := true,
           pc := inc16 s.pc InstructionSize }

theorem upd_eq (f : Nat → Nat) (i v : Nat) : upd f i v i = v := by
  simp [upd]

theorem upd_ne (f : Nat → Nat) {i j : Nat} (v : Nat) (h : j ≠ i) : upd f i v j = f j := by
  simp [upd, h]

/-- Claim C1 (code_bug evidence): the spec's carry example says add-reg
with VX=0xFF, VY=0x01 yields VX=0x00 and VF=1, and the dispatch
comment in `opcode.go` documents 8XY4 as "VF is set to 1 when there's
a carry".  Evaluating the handler at that input shows the code yields
VX=0x00 but VF=0: its post-addition test `result > 0xFF - result`
computes result ≥ 0x80, not the carry out of bit 7. -/
theorem add_reg_flag_is_not_carry_at_ff_plus_one :
    ((add2Instruction c1State 0x8014).map fun r =>
        (r.1.registers 0, r.1.registers 15, r.2)) = some (0x00, 0, none) := by
  rfl

/-- Claim C3 (counterexample): a BCD store with I = 4094 touches
addresses 4094, 4095 and 4096; the source performs no bounds check, so
the access at 4096 is a runtime panic (modelled `none`), not a
reported `MemoryFault` error. -/
theorem bcd_out_of_range_is_a_panic_not_a_fault :
    bcdInstruction c3State 0xF033 = none := by
  rfl

/-- Claim C3 (amended): none of the memory-touching operations is
bounds-checked into a typed error.  Opcode fetch, BCD store, register
store/load and sprite fetch succeed exactly when all their addresses
are below 4096, in which case they report no error at all; otherwise
the Go slice access panics (modelled `none`).  No `MemoryFault` error
value exists in the code. -/
theorem memory_accesses_are_unchecked (s : VMState) (op : Nat) :
    ((fetchOpcode s).isSome = decide (s.pc + 1 < MemorySize)) ∧
    ((bcdInstruction s op).map Prod.snd =
      if s.index + 2 < MemorySize then some none else none) ∧
    ((strInstruction s op).map Prod.snd =
      if s.index + nibX op < MemorySize then some none else none) ∧
    ((ldrInstruction s op).map Prod.snd =
      if s.index + nibX op < MemorySize then some none else none) ∧
    ((spriteInstruction s op).map Prod.snd =
      if ∀ y, y < nibN op → s.index + y < MemorySize
      then some none else none) := by
  refine ⟨?_, ?_, ?_, ?_, ?_⟩
  · unfold fetchOpcode; split <;> rename_i h <;> simp [h]
  · simp only [bcdInstruction]; split <;> rfl
  · simp only [strInstruction]; split <;> rfl
  · simp only [ldrInstruction]; split <;> rfl
  · simp only [spriteInstruction]; split <;> rfl

/-- Claim C4 (counterexample): `jmi 0xBFFF` with V0 = 0xFF stores
PC = 0xFFF + 0xFF = 0x10FE, which is not a 12-bit value: the stored
program counter differs from itself masked with 0x0FFF. -/
theorem jmi_stores_pc_beyond_12_bits :
    ((jmiInstruction c4State 0xBFFF).map fun r => (r.1.pc, r.2)) = some (0x10FE, none) ∧
    ¬ (0x10FE = 0x10FE &&& 0x0FFF) := by
  refine ⟨by rfl, by decide⟩

/-- Claim C4 (amended): PC and I are 12-bit values only after the
instructions that mask the opcode itself — `jmp`, `jsr` and `mvi`
store `opcode & 0x0FFF`, which is fixed by the 12-bit mask — while
`jmi` stores PC = NNN + V0 and `adi` stores I = I + VX, both as plain
16-bit sums with no 12-bit mask. -/
theorem pc_index_masking_only_where_opcode_is_masked (s : VMState) (op : Nat) :
    ((mviInstruction s op).map fun r => r.1.index) = some (op &&& 0x0FFF) ∧
    ((op &&& 0x0FFF) &&& 0x0FFF = op &&& 0x0FFF) ∧
    ((jmpInstruction s op).map fun r => r.1.pc) =
      (if op &&& 0x0FFF = s.pc then some s.pc else some (op &&& 0x0FFF)) ∧
    ((jsrInstruction s op).map fun r => r.1.pc) =
      (if s.sp < StackSize then some (op &&& 0x0FFF) else none) ∧
    ((jmiInstruction s op).map fun r => r.1.pc) =
      some (((op &&& 0x0FFF) + s.registers 0) % 65536) ∧
    ((adiInstruction s op).map fun r => r.1.index) =
      some ((s.index + s.registers (nibX op)) % 65536) := by
  refine ⟨by rfl, ?_, ?_, ?_, by rfl, by rfl⟩
  · rw [Nat.and_assoc]; rfl
  · unfold jmpInstruction; split <;> rename_i h <;> simp [h]
  · unfold jsrInstruction; split <;> rename_i h <;> simp [h]

/-- Claim C5: for all register values (destination not VF, which 8XY4
overwrites last, see C10), add-reg stores `(VX + VY) mod 256` into VX
and sets VF to 1 exactly when the wrapped result exceeds `0xFF` minus
the wrapped result — a comparison made on the result after the
addition, not a pre-addition overflow check. -/
theorem add_reg_wraps_and_sets_post_addition_flag (s : VMState) (op : Nat)
    (hX : nibX op ≠ 15) :
    ∃ s', add2Instruction s op = some (s', none) ∧
      s'.registers (nibX op) =
        (s.registers (nibX op) + s.registers (nibY op)) % 256 ∧
      s'.registers 15 =
        if (s.registers (nibX op) + s.registers (nibY op)) % 256 >
            255 - (s.registers (nibX op) + s.registers (nibY op)) % 256
        then 1 else 0 := by
  refine ⟨_, rfl, ?_, ?_⟩ <;> simp [add2Instruction, upd, hX]

/-- Witness for C5: at V2 = 0x20, V3 = 0x30 the instruction 0x8234
satisfies the add-reg postcondition. -/
theorem add_reg_wraps_and_sets_post_addition_flag_witness :
    ∃ s', add2Instruction c5State 0x8234 = some (s', none) ∧
      s'.registers (nibX 0x8234) =
        (c5State.registers (nibX 0x8234) + c5State.registers (nibY 0x8234)) % 256 ∧
      s'.registers 15 =
        if (c5State.registers (nibX 0x8234) + c5State.registers (nibY 0x8234)) % 256 >
            255 - (c5State.registers (nibX 0x8234) + c5State.registers (nibY 0x8234)) % 256
        then 1 else 0 :=
  add_reg_wraps_and_sets_post_addition_flag c5State 0x8234 (by decide)

/-- Claim C6: a 1NNN jump whose target equals the current PC returns
the distinguished `errInfiniteLoop` signal and leaves the whole
machine state unchanged; otherwise it sets PC = NNN. -/
theorem jump_to_self_signals_halt (s : VMState) (op : Nat)
    (hop : op &&& 0xF000 = 0x1000) :
    (op &&& 0x0FFF = s.pc →
      ∀ rb, executeOpcode rb s op = some (s, some VMErr.infiniteLoop)) ∧
    (op &&& 0x0FFF ≠ s.pc →
      ∀ rb, executeOpcode rb s op = some ({ s with pc := op &&& 0x0FFF }, none)) := by
  have hdec : decode op = Instr.jmp := by
    simp only [decode, hop]
    norm_num
  constructor
  · intro h rb
    unfold executeOpcode
    rw [hdec]
    simp [execInstr, jmpInstruction, h]
  · intro h rb
    unfold executeOpcode
    rw [hdec]
    simp [execInstr, jmpInstruction, h]

/-- Witness for C6: opcode 0x1200 at PC = 0x200 halts with
`errInfiniteLoop` and the state is returned unchanged. -/
theorem jump_to_self_signals_halt_witness :
    executeOpcode 0 c6State 0x1200 = some (c6State, some VMErr.infiniteLoop) :=
  (jump_to_self_signals_halt c6State 0x1200 (by decide)).1 (by decide) 0

/-- If an opcode matches none of the dispatch patterns, `decode` falls
through every case of the switch to the unknown handler. -/
theorem decode_eq_unknown (op : Nat) (h : ¬ KnownOpcode op) :
    decode op = Instr.unknown := by
  unfold KnownOpcode at h
  push_neg at h
  obtain ⟨h0, h1, h2, h3, h4, h5, h6, h7, h8, h9, hA, hB, hC, hD, hE, hF⟩ := h
  unfold decode
  by_cases t0 : op &&& 0xF000 = 0x0000
  · rw [if_pos t0, if_neg (h0 t0).1, if_neg (h0 t0).2]
  · rw [if_neg t0, if_neg h1, if_neg h2, if_neg h3, if_neg h4, if_neg h5,
        if_neg h6, if_neg h7]
    by_cases t8 : op &&& 0xF000 = 0x8000
    · obtain ⟨n0, n1, n2, n3, n4, n5, n6, n7, nE⟩ := h8 t8
      rw [if_pos t8, if_neg n0, if_neg n1, if_neg n2, if_neg n3, if_neg n4,
          if_neg n5, if_neg n6, if_neg n7, if_neg nE]
    · rw [if_neg t8, if_neg h9, if_neg hA, if_neg hB, if_neg hC, if_neg hD]
      by_cases tE : op &&& 0xF000 = 0xE000
      · obtain ⟨n9E, nA1⟩ := hE tE
        rw [if_pos tE, if_neg n9E, if_neg nA1]
      · rw [if_neg tE]
        by_cases tF : op &&& 0xF000 = 0xF000
        · obtain ⟨n07, n0A, n15, n18, n1E, n29, n33, n55, n65⟩ := hF tF
          rw [if_pos tF, if_neg n07, if_neg n0A, if_neg n15, if_neg n18,
              if_neg n1E, if_neg n29, if_neg n33, if_neg n55, if_neg n65]
        · rw [if_neg tF]

/-- Claim C7: an opcode matching none of the dispatch patterns executes
as the unknown-instruction handler: it fails with the unknown-op-code
error carrying the raw opcode and leaves the machine state unchanged. -/
theorem unknown_opcode_reports_error (rb : Nat) (s : VMState) (op : Nat)
    (h : ¬ KnownOpcode op) :
    executeOpcode rb s op = some (s, some (VMErr.unknownOpcode op)) := by
  unfold executeOpcode
  rw [decode_eq_unknown op h]
  rfl

/-- Witness for C7: opcode 0xFFFF matches no pattern and yields the
reported unknown-op-code failure. -/
theorem unknown_opcode_reports_error_witness :
    executeOpcode 0 zeroState 0xFFFF = some (zeroState, some (VMErr.unknownOpcode 0xFFFF)) :=
  unknown_opcode_reports_error 0 zeroState 0xFFFF (by unfold KnownOpcode; decide)

/-- Claim C10: when the destination register index X is 0xF, sub, shr
and shl write their borrow/bit flag into VF first and then overwrite
it with the arithmetic/shift result, so VF ends holding the result;
add-reg writes the wrapped sum first and the flag second, so VF ends
holding the flag computed from the wrapped result. -/
theorem vf_destination_flag_overwrite (s : VMState) (op : Nat)
    (hX : nibX op = 15) :
    (∃ s', subInstruction s op = some (s', none) ∧
       s'.registers 15 = sub8 (s.registers 15) (s.registers (nibY op))) ∧
    (∃ s', shrInstruction s op = some (s', none) ∧
       s'.registers 15 = s.registers 15 >>> 1) ∧
    (∃ s', shlInstruction s op = some (s', none) ∧
       s'.registers 15 = (s.registers 15 <<< 1) % 256) ∧
    (∃ s', add2Instruction s op = some (s', none) ∧
       s'.registers 15 =
         if (s.registers 15 + s.registers (nibY op)) % 256 >
             255 - (s.registers 15 + s.registers (nibY op)) % 256
         then 1 else 0) := by
  refine ⟨⟨_, rfl, ?_⟩, ⟨_, rfl, ?_⟩, ⟨_, rfl, ?_⟩, ⟨_, rfl, ?_⟩⟩ <;>
    simp [subInstruction, shrInstruction, shlInstruction, add2Instruction, upd, hX]

/-- Witness for C10: at VF = 7, V1 = 3 the opcode nibbles X = 0xF,
Y = 1 (as in 0x8F10) satisfy all four overwrite facts. -/
theorem vf_destination_flag_overwrite_witness :
    (∃ s', subInstruction c10State 0x8F10 = some (s', none) ∧
       s'.registers 15 = sub8 (c10State.registers 15) (c10State.registers (nibY 0x8F10))) ∧
    (∃ s', shrInstruction c10State 0x8F10 = some (s', none) ∧
       s'.registers 15 = c10State.registers 15 >>> 1) ∧
    (∃ s', shlInstruction c10State 0x8F10 = some (s', none) ∧
       s'.registers 15 = (c10State.registers 15 <<< 1) % 256) ∧
    (∃ s', add2Instruction c10State 0x8F10 = some (s', none) ∧
       s'.registers 15 =
         if (c10State.registers 15 + c10State.registers (nibY 0x8F10)) % 256 >
             255 - (c10State.registers 15 + c10State.registers (nibY 0x8F10)) % 256
         then 1 else 0) :=
  vf_destination_flag_overwrite c10State 0x8F10 (by decide)

/-- Claim C2: whenever the fetched instruction executes without error,
`step` decrements the delay timer if it is nonzero, decrements the
sound timer if it is nonzero, and requests a beep exactly when the
sound timer (after the instruction, before the decrement) is exactly
1 — the beep is issued before the timer reaches 0.  On an instruction
error the timers are untouched and no beep is requested. -/
theorem timers_update_after_successful_instruction (rb : Nat) (s : VMState)
    (op : Nat) (s' : VMState)
    (hfetch : fetchOpcode s = some op)
    (hexec : executeOpcode rb s op = some (s', none)) :
    step rb s = some
      ({ s' with
          delayTimer := if 0 < s'.delayTimer then s'.delayTimer - 1 else s'.delayTimer,
          soundTimer := if 0 < s'.soundTimer then s'.soundTimer - 1 else s'.soundTimer },
        (decide (s'.soundTimer = 1), none)) := by
  simp only [step, hfetch, hexec]
  by_cases hd : 0 < s'.delayTimer <;> by_cases hs : 0 < s'.soundTimer <;>
    simp [hd, hs]

/-- Witness for C2: with delay timer 2 and sound timer 1 and a `mov`
opcode at PC, one step yields delay timer 1, sound timer 0, and a beep
request. -/
theorem timers_update_after_successful_instruction_witness :
    step 0 c2State = some
      ({ c2After with
          delayTimer := if 0 < c2After.delayTimer then c2After.delayTimer - 1 else c2After.delayTimer,
          soundTimer := if 0 < c2After.soundTimer then c2After.soundTimer - 1 else c2After.soundTimer },
        (decide (c2After.soundTimer = 1), none)) :=
  timers_update_after_successful_instruction 0 c2State 0x6000 c2After rfl rfl

/-- After the FX55 write loop, the byte at `base + i` holds register
`i`, for every `i` covered by the loop. -/
theorem foldWrite_get (regs : Nat → Nat) (base : Nat) :
    ∀ (k : Nat) (mem : Nat → Nat) (i : Nat), i < k →
      ((List.range k).foldl (fun m j => upd m (base + j) (regs j)) mem) (base + i)
        = regs i := by
  intro k
  induction k with
  | zero => intro mem i hi; exact absurd hi (Nat.not_lt_zero i)
  | succ k ih =>
    intro mem i hi
    rw [List.range_succ, List.foldl_append]
    simp only [List.foldl_cons, List.foldl_nil]
    by_cases hik : i = k
    · subst hik
      rw [upd_eq]
    · rw [upd_ne _ _ (by omega : base + i ≠ base + k)]
      exact ih mem i (by omega)

/-- The FX65 read loop is the identity on the register file when every
byte it reads already equals the corresponding register. -/
theorem foldLoad_id (g : Nat → Nat) :
    ∀ (k : Nat) (regs : Nat → Nat), (∀ i, i < k → g i = regs i) →
      (List.range k).foldl (fun r i => upd r i (g i)) regs = regs := by
  intro k
  induction k with
  | zero => intro regs _; rfl
  | succ k ih =>
    intro regs hg
    rw [List.range_succ, List.foldl_append]
    simp only [List.foldl_cons, List.foldl_nil]
    rw [ih regs (fun i hi => hg i (by omega))]
    funext j
    by_cases hj : j = k
    · subst hj
      rw [upd_eq, hg j (by omega)]
    · rw [upd_ne _ _ hj]

/-- Claim C9: FX55 with count N stores V0..VN at I..I+N and advances I
by N + 1; resetting I and running FX65 with the same count restores the
whole register file and advances I by the same N + 1. -/
theorem store_load_registers_roundtrip (s : VMState) (op1 op2 : Nat)
    (hn : nibX op2 = nibX op1)
    (hrange : s.index + nibX op1 < MemorySize) :
    ∃ s1 s2,
      strInstruction s op1 = some (s1, none) ∧
      ldrInstruction { s1 with index := s.index } op2 = some (s2, none) ∧
      s1.index = s.index + nibX op1 + 1 ∧
      s2.index = s.index + nibX op1 + 1 ∧
      s2.registers = s.registers := by
  have hr : s.index + nibX op1 < 4096 := hrange
  have hrange2 : s.index + nibX op2 < MemorySize := by rw [hn]; exact hrange
  simp only [strInstruction, ldrInstruction, if_pos hrange, if_pos hrange2]
  refine ⟨_, _, rfl, rfl, ?_, ?_, ?_⟩
  · show inc16 s.index (nibX op1 + 1) = s.index + nibX op1 + 1
    unfold inc16
    omega
  · show inc16 s.index (nibX op2 + 1) = s.index + nibX op1 + 1
    unfold inc16
    rw [hn]
    omega
  · show (List.range (nibX op2 + 1)).foldl
        (fun r i => upd r i
          (((List.range (nibX op1 + 1)).foldl
              (fun m j => upd m (s.index + j) (s.registers j)) s.memory) (s.index + i)))
        s.registers = s.registers
    exact foldLoad_id _ _ _ (fun i hi =>
      foldWrite_get s.registers s.index (nibX op1 + 1) s.memory i (by omega))

/-- Witness for C9: V0..V3 = 1,2,3,4 stored at I = 0x300 with N = 3
(0xF355) and loaded back (0xF365) restores the registers, I advancing
to 0x304 both times. -/
theorem store_load_registers_roundtrip_witness :
    ∃ s1 s2,
      strInstruction c9State 0xF355 = some (s1, none) ∧
      ldrInstruction { s1 with index := c9State.index } 0xF365 = some (s2, none) ∧
      s1.index = c9State.index + nibX 0xF355 + 1 ∧
      s2.index = c9State.index + nibX 0xF355 + 1 ∧
      s2.registers = c9State.registers :=
  store_load_registers_roundtrip c9State 0xF355 0xF365 (by decide) (by decide)

/-- The framebuffer component of the sprite fold ignores the collision
accumulator: it is the plain XOR-toggle fold. -/
theorem foldl_touchPixel_fst (L : List Nat) :
    ∀ (g : Nat → Nat) (c : Nat),
      (L.foldl touchPixel (g, c)).1 = L.foldl togPix g := by
  induction L with
  | nil => intro g c; rfl
  | cons a L ih =>
    intro g c
    simp only [List.foldl_cons]
    exact ih (togPix g a) (if g a ≠ 0 then 1 else c)

/-- Toggling the same cell twice is the identity. -/
theorem togPix_togPix (g : Nat → Nat) (a : Nat) : togPix (togPix g a) a = g := by
  funext j
  by_cases hj : j = a
  · subst hj
    simp only [togPix, upd, if_pos rfl]
    exact Nat.xor_cancel_right 1 (g j)
  · simp [togPix, upd, hj]

/-- Toggles of two (possibly equal) cells commute. -/
theorem togPix_comm (g : Nat → Nat) (a b : Nat) :
    togPix (togPix g a) b = togPix (togPix g b) a := by
  by_cases hab : a = b
  · subst hab; rfl
  · funext j
    by_cases hja : j = a
    · subst hja
      simp [togPix, upd, hab, Ne.symm hab]
    · by_cases hjb : j = b
      · subst hjb
        simp [togPix, upd, hab, Ne.symm hab, hja]
      · simp [togPix, upd, hja, hjb]

/-- A single toggle commutes with a whole list of toggles. -/
theorem togPix_foldl_comm (L : List Nat) :
    ∀ (g : Nat → Nat) (a : Nat),
      togPix (L.foldl togPix g) a = L.foldl togPix (togPix g a) := by
  induction L with
  | nil => intro g a; rfl
  | cons b L ih =>
    intro g a
    simp only [List.foldl_cons]
    rw [ih, togPix_comm]

/-- Applying the same toggle list twice restores the framebuffer. -/
theorem foldl_togPix_involutive (L : List Nat) :
    ∀ g : Nat → Nat, L.foldl togPix (L.foldl togPix g) = g := by
  induction L with
  | nil => intro g; rfl
  | cons a L ih =>
    intro g
    simp only [List.foldl_cons]
    rw [togPix_foldl_comm, togPix_togPix]
    exact ih g

/-- With pairwise-distinct targets, the collision flag computed by the
interleaved check-then-toggle fold tests the original framebuffer. -/
theorem foldl_touchPixel_snd (L : List Nat) :
    ∀ (g : Nat → Nat) (c : Nat), L.Nodup →
      (L.foldl touchPixel (g, c)).2 = if ∃ a ∈ L, g a ≠ 0 then 1 else c := by
  induction L with
  | nil => intro g c _; simp
  | cons a L ih =>
    intro g c hnd
    obtain ⟨ha, hnd'⟩ := List.nodup_cons.mp hnd
    simp only [List.foldl_cons]
    have hstep : touchPixel (g, c) a = (togPix g a, if g a ≠ 0 then 1 else c) := rfl
    rw [hstep, ih (togPix g a) _ hnd']
    have hsame : ∀ b ∈ L, togPix g a b = g b := by
      intro b hb
      have hba : b ≠ a := fun h => ha (h ▸ hb)
      simp [togPix, upd, hba]
    by_cases hex : ∃ b ∈ L, g b ≠ 0
    · obtain ⟨b, hb, hgb⟩ := hex
      rw [if_pos ⟨b, hb, by rw [hsame b hb]; exact hgb⟩,
          if_pos ⟨b, List.mem_cons_of_mem a hb, hgb⟩]
    · have hex' : ¬ ∃ b ∈ L, togPix g a b ≠ 0 := by
        rintro ⟨b, hb, hgb⟩
        exact hex ⟨b, hb, by rw [← hsame b hb]; exact hgb⟩
      rw [if_neg hex']
      by_cases hga : g a ≠ 0
      · rw [if_pos hga, if_pos ⟨a, List.mem_cons_self a L, hga⟩]
      · have hnone : ¬ ∃ b ∈ a :: L, g b ≠ 0 := by
          rintro ⟨b, hb, hgb⟩
          rcases List.mem_cons.mp hb with h | h
          · exact hga (h ▸ hgb)
          · exact hex ⟨b, h, hgb⟩
        rw [if_neg hga, if_neg hnone]

/-- The row of a screen address is the wrapped y coordinate. -/
theorem getScreenAddr_div (x y : Nat) : getScreenAddr x y / 64 = y % 32 := by
  show (64 * (y % 32) + x % 64) / 64 = y % 32
  omega

/-- The column of a screen address is the wrapped x coordinate. -/
theorem getScreenAddr_mod (x y : Nat) : getScreenAddr x y % 64 = x % 64 := by
  show (64 * (y % 32) + x % 64) % 64 = x % 64
  omega

/-- Within one sprite row the eight bit positions map to distinct
screen cells. -/
theorem rowTargets_nodup (pixel xLoc yLoc y : Nat) :
    (rowTargets pixel xLoc yLoc y).Nodup := by
  unfold rowTargets
  apply List.Nodup.map_on
  · intro x1 hx1 x2 hx2 heq
    have h1 : x1 < 8 := List.mem_range.mp (List.mem_of_mem_filter hx1)
    have h2 : x2 < 8 := List.mem_range.mp (List.mem_of_mem_filter hx2)
    have hmod := congrArg (· % 64) heq
    simp only at hmod
    rw [getScreenAddr_mod, getScreenAddr_mod] at hmod
    omega
  · exact List.Nodup.filter _ (List.nodup_range 8)

/-- For a sprite of at most 32 rows, all drawn cells are distinct. -/
theorem spriteTargets_nodup (mem : Nat → Nat) (index h xLoc yLoc : Nat)
    (hh : h ≤ 32) : (spriteTargets mem index h xLoc yLoc).Nodup := by
  unfold spriteTargets
  rw [List.nodup_flatten]
  constructor
  · intro l hl
    obtain ⟨y, _, rfl⟩ := List.mem_map.mp hl
    exact rowTargets_nodup _ _ _ _
  · rw [List.pairwise_map]
    refine (List.pairwise_lt_range h).imp_of_mem ?_
    intro y1 y2 hy1 hy2 hlt
    have hy1' : y1 < h := List.mem_range.mp hy1
    have hy2' : y2 < h := List.mem_range.mp hy2
    intro a ha1 ha2
    unfold rowTargets at ha1 ha2
    obtain ⟨x1, hx1, rfl⟩ := List.mem_map.mp ha1
    obtain ⟨x2, hx2, heq⟩ := List.mem_map.mp ha2
    have hdiv := congrArg (· / 64) heq
    simp only at hdiv
    rw [getScreenAddr_div, getScreenAddr_div] at hdiv
    exact absurd (show y1 = y2 by omega) (Nat.ne_of_lt hlt)

/-- An in-range DXYN draw produces exactly `spriteOut`. -/
theorem spriteInstruction_eq (s : VMState) (op : Nat)
    (hmem : ∀ y, y < nibN op → s.index + y < MemorySize) :
    spriteInstruction s op = some (spriteOut s op, none) := by
  simp only [spriteInstruction]
  rw [if_pos hmem]
  rfl

/-- Claim C8 (counterexample): with one framebuffer pixel already set
at the sprite's location (sprite byte 0x80 at I = 0, drawn at (0,0)),
the second of two identical draws reports VF = 0 even though the
sprite has a set pixel — the first draw cleared the cell, so the
second finds nothing to collide with.  The claim predicts VF = 1
whenever the sprite has at least one set pixel. -/
theorem sprite_second_draw_vf_zero_despite_set_pixel :
    (((spriteInstruction c8State 0xD011).bind fun r => spriteInstruction r.1 0xD011).map
        fun r => r.1.registers 15) = some 0 ∧
    spriteTargets c8State.memory c8State.index (nibN 0xD011)
      (c8State.registers (nibX 0xD011)) (c8State.registers (nibY 0xD011)) ≠ [] := by
  constructor
  · rfl
  · decide

/-- Claim C8 (amended): drawing the same sprite twice (destination and
coordinate registers not VF, sprite rows in range) restores the
framebuffer exactly; VF after the first draw is 1 iff some set sprite
pixel lands on a nonzero cell of the prior framebuffer, and VF after
the second draw is 1 iff some set sprite pixel lands on a nonzero cell
of the first draw's output (not merely iff the sprite has a set
pixel). -/
theorem sprite_double_draw_restores_framebuffer (s : VMState) (op : Nat)
    (hX : nibX op ≠ 15) (hY : nibY op ≠ 15)
    (hmem : ∀ y, y < nibN op → s.index + y < MemorySize) :
    spriteInstruction s op = some (spriteOut s op, none) ∧
    spriteInstruction (spriteOut s op) op =
      some (spriteOut (spriteOut s op) op, none) ∧
    (spriteOut (spriteOut s op) op).gfx = s.gfx ∧
    ((spriteOut s op).registers 15 =
      if ∃ a ∈ spriteTargets s.memory s.index (nibN op)
            (s.registers (nibX op)) (s.registers (nibY op)), s.gfx a ≠ 0
      then 1 else 0) ∧
    ((spriteOut (spriteOut s op) op).registers 15 =
      if ∃ a ∈ spriteTargets s.memory s.index (nibN op)
            (s.registers (nibX op)) (s.registers (nibY op)),
            (spriteOut s op).gfx a ≠ 0
      then 1 else 0) := by
  have hnd : (spriteTargets s.memory s.index (nibN op)
      (s.registers (nibX op)) (s.registers (nibY op))).Nodup :=
    spriteTargets_nodup _ _ _ _ _ (le_trans Nat.and_le_right (by norm_num))
  have hL : spriteTargets (spriteOut s op).memory (spriteOut s op).index
      (nibN op) ((spriteOut s op).registers (nibX op))
      ((spriteOut s op).registers (nibY op))
      = spriteTargets s.memory s.index (nibN op)
          (s.registers (nibX op)) (s.registers (nibY op)) := by
    rw [show (spriteOut s op).registers (nibX op) = s.registers (nibX op) from
          upd_ne _ _ hX,
        show (spriteOut s op).registers (nibY op) = s.registers (nibY op) from
          upd_ne _ _ hY]
    rfl
  refine ⟨spriteInstruction_eq s op hmem, spriteInstruction_eq _ op hmem, ?_, ?_, ?_⟩
  · show ((spriteTargets (spriteOut s op).memory (spriteOut s op).index
        (nibN op) ((spriteOut s op).registers (nibX op))
        ((spriteOut s op).registers (nibY op))).foldl
        touchPixel ((spriteOut s op).gfx, 0)).1 = s.gfx
    rw [hL]
    show ((spriteTargets s.memory s.index (nibN op) (s.registers (nibX op))
        (s.registers (nibY op))).foldl touchPixel
        (((spriteTargets s.memory s.index (nibN op) (s.registers (nibX op))
            (s.registers (nibY op))).foldl touchPixel (s.gfx, 0)).1, 0)).1 = s.gfx
    rw [foldl_touchPixel_fst, foldl_touchPixel_fst, foldl_togPix_involutive]
  · show upd s.registers 15
        ((spriteTargets s.memory s.index (nibN op) (s.registers (nibX op))
          (s.registers (nibY op))).foldl touchPixel (s.gfx, 0)).2 15 = _
    rw [upd_eq, foldl_touchPixel_snd _ _ _ hnd]
  · show upd (spriteOut s op).registers 15
        ((spriteTargets (spriteOut s op).memory (spriteOut s op).index
          (nibN op) ((spriteOut s op).registers (nibX op))
          ((spriteOut s op).registers (nibY op))).foldl
          touchPixel ((spriteOut s op).gfx, 0)).2 15 = _
    rw [upd_eq, hL, foldl_touchPixel_snd _ _ _ hnd]

/-- Witness for C8 (amended): the concrete double draw of `c8State`
satisfies all five conclusions. -/
theorem sprite_double_draw_restores_framebuffer_witness :
    spriteInstruction c8State 0xD011 = some (spriteOut c8State 0xD011, none) ∧
    spriteInstruction (spriteOut c8State 0xD011) 0xD011 =
      some (spriteOut (spriteOut c8State 0xD011) 0xD011, none) ∧
    (spriteOut (spriteOut c8State 0xD011) 0xD011).gfx = c8State.gfx ∧
    ((spriteOut c8State 0xD011).registers 15 =
      if ∃ a ∈ spriteTargets c8State.memory c8State.index (nibN 0xD011)
            (c8State.registers (nibX 0xD011)) (c8State.registers (nibY 0xD011)),
            c8State.gfx a ≠ 0
      then 1 else 0) ∧
    ((spriteOut (spriteOut c8State 0xD011) 0xD011).registers 15 =
      if ∃ a ∈ spriteTargets c8State.memory c8State.index (nibN 0xD011)
            (c8State.registers (nibX 0xD011)) (c8State.registers (nibY 0xD011)),
            (spriteOut c8State 0xD011).gfx a ≠ 0
      then 1 else 0) :=
  sprite_double_draw_restores_framebuffer c8State 0xD011 (by decide) (by decide)
    (by decide)

end Chip8
